import Mathlib

/-!
Verification of the Pulse reactive core (guard evaluation, cancellation,
dependency tracking, subscription and SSR hydration) against a shallow
embedding of `src/src/index.ts` (the `guard` factory with its `evaluate`,
`notifyDependents`, `handleRead`, `subscribe` and `_hydrate` closures) and
`src/src/ssr.ts` (`hydrate`).  The Source cell (`source.ts`) is not part of
the provided sources; where a claim needs it, its `set` behaviour is
modelled from the spec (snapshot dependents, clear, then notify).
-/

set_option autoImplicit false

namespace Pulse

/-- JavaScript primitive values as they flow through guard evaluators:
`undefined`, booleans, numbers and strings.  Identity comparison `===`
on these primitives coincides with structural equality. -/
inductive JSVal where
  | undefined : JSVal
  | bool : Bool → JSVal
  | num : Int → JSVal
  | str : String → JSVal
deriving DecidableEq, Repr

/-- JS truthiness of a primitive value (used for the `!` operator). -/
def JSVal.truthy : JSVal → Bool
  | .undefined => false
  | .bool b => b
  | .num n => n != 0
  | .str s => s != ""

/-- JS logical negation `!v` on a primitive value. -/
def jsNot (v : JSVal) : JSVal := .bool (!v.truthy)

/-- `GuardStatus` from index.ts: 'ok' | 'fail' | 'pending'. -/
inductive GuardStatus where
  | ok : GuardStatus
  | fail : GuardStatus
  | pending : GuardStatus
deriving DecidableEq, Repr

/-- `GuardState<T>`: the status together with the optional value
(present on 'ok') and optional reason string (present on 'fail'). -/
structure GuardState where
  status : GuardStatus
  value : Option JSVal := none
  reason : Option String := none
deriving DecidableEq, Repr

/-- The reason synthesized for a return of exactly `false`:
`name ? name + " failed" : "condition failed"` (index.ts lines 186, 201). -/
def mkFailReason : Option String → String
  | some n => n ++ " failed"
  | none => "condition failed"

/-- How a settled (non-promise) evaluator result becomes a state:
exactly `false` gives 'fail' with the synthesized reason, anything else
(including `undefined`) gives 'ok' with that value (index.ts 185-189,
200-204). -/
def settleValue (name : Option String) (v : JSVal) : GuardState :=
  if v = .bool false then
    { status := .fail, reason := some (mkFailReason name) }
  else
    { status := .ok, value := some v }

/-- The per-guard mutable core relevant to evaluation: the current
`state` and the `evaluationId` generation counter. -/
structure GuardCore where
  state : GuardState
  evaluationId : Nat
deriving DecidableEq, Repr

/-- A fresh guard core as built by the `guard` factory before the initial
evaluation: `state = { status: 'pending' }`, `evaluationId = 0`. -/
def freshCore : GuardCore := { state := { status := .pending }, evaluationId := 0 }

/-- What one invocation of the evaluator does, as observed by `evaluate`:
it returns a plain value synchronously, returns an in-flight promise, or
throws synchronously with a message. -/
inductive EvalOutcome where
  | value : JSVal → EvalOutcome
  | promise : EvalOutcome
  | throws : String → EvalOutcome
deriving DecidableEq, Repr

/-- Result of the synchronous part of `evaluate`: the updated core,
whether `notifyDependents` was invoked synchronously, and the generation
`currentId` captured by this attempt. -/
structure EvalResult where
  core : GuardCore
  notified : Bool
  captured : Nat
deriving DecidableEq, Repr

/-- The synchronous part of `evaluate` (index.ts 172-214).  It increments
`evaluationId` and captures it as `currentId`; on a promise it sets the
state to bare 'pending' and returns without notifying; on a plain value it
settles via `settleValue` and notifies exactly when the status or the
value (identity comparison) changed; on a synchronous throw it sets 'fail'
with the error message and notifies unconditionally. -/
def evaluateStep (name : Option String) (g : GuardCore) (out : EvalOutcome) : EvalResult :=
  let currentId := g.evaluationId + 1
  let oldStatus := g.state.status
  let oldValue := g.state.value
  match out with
  | .promise =>
      { core := { state := { status := .pending }, evaluationId := currentId },
        notified := false, captured := currentId }
  | .value v =>
      let newState := settleValue name v
      { core := { state := newState, evaluationId := currentId },
        notified := !(oldStatus = newState.status ∧ oldValue = newState.value : Bool),
        captured := currentId }
  | .throws msg =>
      { core := { state := { status := .fail, reason := some msg }, evaluationId := currentId },
        notified := true, captured := currentId }

/-- How the promise attached to an asynchronous evaluation settles:
resolution with a value, or rejection with an error message. -/
inductive Settlement where
  | resolved : JSVal → Settlement
  | rejected : String → Settlement
deriving DecidableEq, Repr

/-- The `.then`/`.catch` continuations of `evaluate` (index.ts 182-198):
the settlement is applied, and dependents notified, only when the captured
generation still equals the guard's current `evaluationId`; otherwise the
core is left untouched and nothing is notified.  The returned Bool is
whether `notifyDependents` ran. -/
def settleAsync (name : Option String) (captured : Nat) (g : GuardCore)
    (s : Settlement) : GuardCore × Bool :=
  if captured = g.evaluationId then
    match s with
    | .resolved v => ({ state := settleValue name v, evaluationId := g.evaluationId }, true)
    | .rejected msg =>
        ({ state := { status := .fail, reason := some msg }, evaluationId := g.evaluationId }, true)
  else
    (g, false)

/-- `_hydrate` (index.ts 272-276): overwrite the state with the snapshot
entry, bump `evaluationId`, and notify dependents unconditionally. -/
def hydrateCore (g : GuardCore) (newState : GuardState) : GuardCore × Bool :=
  ({ state := newState, evaluationId := g.evaluationId + 1 }, true)

/-- Calling a guard as a function (index.ts 233-236): returns the value
when the status is 'ok', otherwise `undefined`. -/
def guardRead (st : GuardState) : JSVal :=
  if st.status = .ok then st.value.getD .undefined else .undefined

/-- A guard core together with a count of evaluator invocations, to
observe that attempts run to completion even when their results are later
discarded. -/
structure AsyncRun where
  core : GuardCore
  invocations : Nat
deriving DecidableEq, Repr

/-- One evaluation attempt of a guard whose evaluator returns a promise:
the evaluator is invoked (count + 1) and `evaluate` takes the promise
branch; the second component is the generation that the attached
continuation captured. -/
def asyncAttempt (name : Option String) (r : AsyncRun) : AsyncRun × Nat :=
  let res := evaluateStep name r.core .promise
  ({ core := res.core, invocations := r.invocations + 1 }, res.captured)

/-- One arriving settlement applied to the accumulated guard core and
count of settlements that actually mutated state and notified. -/
def settleFold (name : Option String) (acc : GuardCore × Nat) (p : Nat × Settlement) :
    GuardCore × Nat :=
  let r := settleAsync name p.1 acc.1 p.2
  (r.1, acc.2 + (if r.2 then 1 else 0))

/-- Applies a list of promise settlements, each tagged with its captured
generation, in the given real-time arrival order; counts how many of them
actually mutated state and notified. -/
def applyAll (name : Option String) (l : List (Nat × Settlement)) (g : GuardCore) :
    GuardCore × Nat :=
  l.foldl (settleFold name) (g, 0)

/-- The guard of the cancellation scenario after three evaluation
attempts (the initial one at construction plus two triggered by source
mutations before the first settlement): captured generations 1, 2, 3. -/
def slowRun : AsyncRun :=
  (asyncAttempt (some "slow")
    (asyncAttempt (some "slow")
      (asyncAttempt (some "slow") { core := freshCore, invocations := 0 }).1).1).1

/-- The is-even scenario: a source holding an integer and the guard
named is-even whose evaluator returns `count() % 2 === 0`.  `dep` records
whether the guard sits in the source's dependent set. -/
structure EvenSys where
  count : Int
  g : GuardState
  dep : Bool
deriving DecidableEq, Repr

/-- One evaluation of the is-even guard: reading `count()` registers the
dependency, then the boolean result settles through the synchronous path
of `evaluate`. -/
def evenEval (s : EvenSys) : EvenSys :=
  let afterRead := { s with dep := true }
  let result := JSVal.bool (decide (afterRead.count % 2 = 0))
  { afterRead with g := settleValue (some "is-even") result }

/-- Modelled from the spec: `source.ts` is not among the provided source
files; per spec section 4.2, `set(newValue)` replaces the value, then
snapshots and clears the dependent set and notifies each dependent, here
re-evaluating the is-even guard when it is registered. -/
def countSet (v : Int) (s : EvenSys) : EvenSys :=
  let s1 := { s with count := v }
  if s1.dep then evenEval { s1 with dep := false } else s1

/-- The is-even system right after `source(0)` and guard construction
(the guard factory evaluates once immediately). -/
def evenInit : EvenSys :=
  evenEval { count := 0, g := { status := .pending }, dep := false }

/-- A guard as seen by the hydration registry: its evaluation core, how
many times its evaluator has been invoked, and whether it exposes the
`_hydrate` hook (every guard built by the factory does; the flag embeds
the `g && g._hydrate` check of ssr.ts line 82 for foreign objects). -/
structure HGuard where
  core : GuardCore
  invocations : Nat
  hasHydrate : Bool
deriving DecidableEq, Repr

/-- Applying `_hydrate` to a registered guard: the state is overwritten
and the generation bumped via `hydrateCore`; the invocation count is
untouched because `_hydrate` contains no call to the evaluator. -/
def hydrateGuard (g : HGuard) (ns : GuardState) : HGuard :=
  { core := (hydrateCore g.core ns).1, invocations := g.invocations,
    hasHydrate := g.hasHydrate }

/-- `guardRegistry.get(name)` on the name-keyed registry (a JS Map, so
names are unique keys; modelled as an association list read at the first
binding). -/
def regGet (reg : List (String × HGuard)) (n : String) : Option HGuard :=
  (reg.find? (fun p => p.1 = n)).map Prod.snd

/-- One snapshot entry of `hydrate` (ssr.ts 80-85): look the name up in
the registry; when a guard is found and has the `_hydrate` hook, apply it
to that guard (the Map holds one binding per name, so updating every
binding at that name updates exactly the found guard); otherwise the
entry is skipped and nothing changes. -/
def hydrateEntry (reg : List (String × HGuard)) (n : String) (st : GuardState) :
    List (String × HGuard) :=
  match regGet reg n with
  | some g =>
      if g.hasHydrate then
        reg.map (fun q => if q.1 = n then (q.1, hydrateGuard q.2 st) else q)
      else reg
  | none => reg

/-- `hydrate(state)` (ssr.ts 79-86): `Object.entries` of the snapshot are
processed in order, each through `hydrateEntry`. -/
def hydrate (snap : List (String × GuardState)) (reg : List (String × HGuard)) :
    List (String × HGuard) :=
  snap.foldl (fun r e => hydrateEntry r e.1 e.2) reg

/-- A freshly constructed named guard whose evaluator throws as soon as
it is invoked: the factory runs `evaluate` once at construction, so the
guard starts in 'fail' with one evaluator invocation on record. -/
def throwingGuard (name : String) (msg : String) : HGuard :=
  { core := (evaluateStep (some name) freshCore (.throws msg)).core,
    invocations := 1, hasHydrate := true }

/-- JS `Set.add` on the subscriber set (`subscribers.add(listener)`,
index.ts 264): insertion-ordered and de-duplicated, so adding an already
present callback changes nothing. -/
def subAdd (subs : List Nat) (f : Nat) : List Nat :=
  if f ∈ subs then subs else subs ++ [f]

/-- JS `Set.delete` run by the unsubscribe closure returned from
`subscribe` (index.ts 265): removes the stored occurrence if present,
silently does nothing otherwise. -/
def subRemove (subs : List Nat) (f : Nat) : List Nat :=
  subs.erase f

/-- `subscribers.forEach(sub => sub({ ...state }))` (index.ts 220): the
list of callback invocations of one notification, one per stored
subscriber, in insertion order. -/
def notifyCalls (subs : List Nat) : List Nat := subs

/-- A guard core with one external subscriber whose callback invocations
are counted: `notifyDependents` always runs `subscribers.forEach`
(index.ts 216-221), so the subscriber fires exactly on the evaluations
that reach a `notifyDependents()` call. -/
structure SubRun where
  core : GuardCore
  subCalls : Nat
deriving DecidableEq, Repr

/-- One synchronous evaluation observed through the subscriber: the
callback is invoked once when the evaluation notified. -/
def runSyncEval (name : Option String) (r : SubRun) (out : EvalOutcome) : SubRun :=
  let res := evaluateStep name r.core out
  { core := res.core, subCalls := r.subCalls + (if res.notified then 1 else 0) }

/-- Three sources S, A, B and a guard G whose evaluator is
`() => S() === 0 ? A() : B()`: it always reads S, and reads A or B
according to the value of S.  The `dep` flags record membership of G in
each source's dependent set; `evals` counts evaluator invocations. -/
structure SwitchSys where
  sVal : Int
  aVal : Int
  bVal : Int
  g : GuardState
  depS : Bool
  depA : Bool
  depB : Bool
  evals : Nat
deriving DecidableEq, Repr

/-- One evaluation of the switching guard: each read registers G in the
dependent set of the source it reads, and the returned number settles
through the synchronous path of `evaluate`. -/
def switchEval (s : SwitchSys) : SwitchSys :=
  let s0 := { s with evals := s.evals + 1, depS := true }
  if s0.sVal = 0 then
    let s1 := { s0 with depA := true }
    { s1 with g := settleValue (some "G") (.num s1.aVal) }
  else
    let s1 := { s0 with depB := true }
    { s1 with g := settleValue (some "G") (.num s1.bVal) }

/-- Modelled from the spec: source `set` (spec section 4.2) replaces the
value, then snapshots and clears its own dependent set and notifies each
dependent.  Mutation of S for the switching system. -/
def setS (v : Int) (s : SwitchSys) : SwitchSys :=
  let s1 := { s with sVal := v }
  if s1.depS then switchEval { s1 with depS := false } else s1

/-- Modelled from the spec: source `set` for A of the switching system:
only the dependent set of A itself is snapshotted and cleared. -/
def setA (v : Int) (s : SwitchSys) : SwitchSys :=
  let s1 := { s with aVal := v }
  if s1.depA then switchEval { s1 with depA := false } else s1

/-- Modelled from the spec: source `set` for B of the switching system. -/
def setB (v : Int) (s : SwitchSys) : SwitchSys :=
  let s1 := { s with bVal := v }
  if s1.depB then switchEval { s1 with depB := false } else s1

/-- The switching system right after construction with S = 0 (the first
evaluation reads S and A). -/
def switchInit : SwitchSys :=
  switchEval
    { sVal := 0, aVal := 10, bVal := 20, g := { status := .pending },
      depS := false, depA := false, depB := false, evals := 0 }

/-- Two sources A, B and a guard whose evaluator closure reads A on its
first invocation and B on every later one (a JS closure may branch on its
own captured state), so that the evaluation dropping A is the one that a
mutation of A itself triggers. -/
structure FlipSys where
  aVal : Int
  bVal : Int
  g : GuardState
  depA : Bool
  depB : Bool
  evals : Nat
deriving DecidableEq, Repr

/-- One evaluation of the first-read-switching guard. -/
def flipEval (s : FlipSys) : FlipSys :=
  if s.evals = 0 then
    let s1 := { s with evals := s.evals + 1, depA := true }
    { s1 with g := settleValue (some "G") (.num s1.aVal) }
  else
    let s1 := { s with evals := s.evals + 1, depB := true }
    { s1 with g := settleValue (some "G") (.num s1.bVal) }

/-- Modelled from the spec: source `set` for A of the flip system. -/
def flipSetA (v : Int) (s : FlipSys) : FlipSys :=
  let s1 := { s with aVal := v }
  if s1.depA then flipEval { s1 with depA := false } else s1

/-- Modelled from the spec: source `set` for B of the flip system. -/
def flipSetB (v : Int) (s : FlipSys) : FlipSys :=
  let s1 := { s with bVal := v }
  if s1.depB then flipEval { s1 with depB := false } else s1

/-- The flip system right after construction (first evaluation reads A). -/
def flipInit : FlipSys :=
  flipEval
    { aVal := 0, bVal := 5, g := { status := .pending },
      depA := false, depB := false, evals := 0 }

/-- The cyclic-dependency scenario of core.test.ts 72-87:
`toggle = source(false)`, `A = guard('A', () => toggle() ? !b() : true)`,
`B = guard('B', () => a())`.  Flags: `depToggleA` is A in the dependent
set of toggle, `depAB` is B in the dependent set of A, `depBA` is A in
the dependent set of B. -/
structure CycleSys where
  toggle : Bool
  a : GuardState
  b : GuardState
  depToggleA : Bool
  depAB : Bool
  depBA : Bool
deriving DecidableEq, Repr

/-- Which guard's `evaluate` is running in the notification cascade. -/
inductive Turn where
  | runA : Turn
  | runB : Turn
deriving DecidableEq, Repr

/-- Fuel-bounded embedding of the mutual `evaluate`/`notifyDependents`
recursion of the two guards, exactly as index.ts 172-221 executes it:
the evaluator runs unconditionally (there is no re-entrancy check in
`evaluate`), reads register dependency edges, the synchronous result
settles via `settleValue`, and dependents are notified (own set
snapshotted and cleared first) exactly when status or value changed.
Returns `none` when the nested notification recursion exhausts the fuel;
the real code has no bound at all, so exhaustion at every fuel means the
cascade never returns. -/
def cycleRun : Nat → Turn → CycleSys → Option CycleSys
  | 0, _, _ => none
  | Nat.succ n, .runA, s =>
      let old := s.a
      let afterRead :=
        if s.toggle then { s with depToggleA := true, depBA := true }
        else { s with depToggleA := true }
      let result := if s.toggle then jsNot (guardRead s.b) else JSVal.bool true
      let ns := settleValue (some "A") result
      let s2 := { afterRead with a := ns }
      if old.status = ns.status ∧ old.value = ns.value then some s2
      else if s2.depAB then cycleRun n .runB { s2 with depAB := false } else some s2
  | Nat.succ n, .runB, s =>
      let old := s.b
      let afterRead := { s with depAB := true }
      let result := guardRead s.a
      let ns := settleValue (some "B") result
      let s2 := { afterRead with b := ns }
      if old.status = ns.status ∧ old.value = ns.value then some s2
      else if s2.depBA then cycleRun n .runA { s2 with depBA := false } else some s2

/-- Construction of the two guards in test order: A evaluates once with
toggle = false (no cascade possible, fuel 1 suffices), then B evaluates
once, reading A. -/
def cycleConstruct : Option CycleSys :=
  (cycleRun 1 .runA
      { toggle := false, a := { status := .pending }, b := { status := .pending },
        depToggleA := false, depAB := false, depBA := false }).bind
    (fun s => cycleRun 1 .runB s)

/-- The constructed state: A ok true (registered on toggle), B ok true
(registered on A). -/
def cycleInit : CycleSys :=
  { toggle := false,
    a := { status := .ok, value := some (.bool true) },
    b := { status := .ok, value := some (.bool true) },
    depToggleA := true, depAB := true, depBA := false }

/-- Modelled from the spec: `toggle.set(true)` (spec section 4.2):
replace the value, snapshot and clear the dependent set, notify each
dependent — here guard A re-evaluates, starting the cascade bounded by
the given fuel. -/
def toggleSetTrue (fuel : Nat) (s : CycleSys) : Option CycleSys :=
  let s1 := { s with toggle := true }
  if s1.depToggleA then cycleRun fuel .runA { s1 with depToggleA := false } else some s1

/-- Claim C4, as the code falsifies it: re-evaluating a guard whose
evaluator returns an in-flight promise does set the status to 'pending'
immediately, but `evaluate` reaches no `notifyDependents()` call in the
promise branch before settlement (index.ts 180-198), so dependents and
subscribers are not notified of the pending transition. -/
theorem pending_notification_counterexample :
    (evaluateStep (some "data") freshCore .promise).core.state.status = .pending
    ∧ (evaluateStep (some "data") freshCore .promise).notified = false := by
  decide

/-- Claim C4 (amended): whenever a guard's evaluator returns an in-flight
promise, the guard's status becomes 'pending' immediately and the
generation is bumped, but no dependent or subscriber is notified of the
pending transition; notification happens only at settlement. -/
theorem promise_sets_pending_without_notification (name : Option String) (g : GuardCore) :
    evaluateStep name g .promise
      = { core := { state := { status := .pending }, evaluationId := g.evaluationId + 1 },
          notified := false, captured := g.evaluationId + 1 } := rfl

/-- Claim C6: with a source holding 0, the guard is-even evaluating
`count() % 2 === 0` is 'ok' with value `true`; after `count.set(1)` it is
'fail', its reason is the synthesized default phrase, which is the guard
name followed by " failed", and calling the guard returns `undefined`. -/
theorem is_even_scenario :
    evenInit.g.status = .ok
    ∧ evenInit.g.value = some (.bool true)
    ∧ guardRead evenInit.g = .bool true
    ∧ (countSet 1 evenInit).g.status = .fail
    ∧ (countSet 1 evenInit).g.reason = some (mkFailReason (some "is-even"))
    ∧ mkFailReason (some "is-even") = "is-even" ++ " failed"
    ∧ guardRead (countSet 1 evenInit).g = .undefined := by
  decide

/-- Claim C7: a synchronous evaluator returning `undefined` yields status
'ok' with `undefined` as the success value — not 'fail' and not
'pending'; more generally every synchronous return other than exactly
`false` yields 'ok', and exactly `false` yields 'fail'. -/
theorem undefined_sync_return_is_ok
    (name : Option String) (g : GuardCore) (v : JSVal) (h : v ≠ .bool false) :
    ((evaluateStep name g (.value .undefined)).core.state.status = .ok
      ∧ (evaluateStep name g (.value .undefined)).core.state.value = some .undefined
      ∧ (evaluateStep name g (.value .undefined)).core.state.status ≠ .fail
      ∧ (evaluateStep name g (.value .undefined)).core.state.status ≠ .pending)
    ∧ (evaluateStep name g (.value v)).core.state.status = .ok
    ∧ (evaluateStep name g (.value (.bool false))).core.state.status = .fail := by
  refine ⟨?_, ?_, ?_⟩
  · simp [evaluateStep, settleValue]
  · simp [evaluateStep, settleValue, h]
  · simp [evaluateStep, settleValue]

/-- Witness for C7 at `v` the falsy-but-not-false value `0`. -/
theorem undefined_sync_return_is_ok_witness :
    (JSVal.num 0 ≠ JSVal.bool false)
    ∧ (((evaluateStep none freshCore (.value .undefined)).core.state.status = .ok
        ∧ (evaluateStep none freshCore (.value .undefined)).core.state.value = some .undefined
        ∧ (evaluateStep none freshCore (.value .undefined)).core.state.status ≠ .fail
        ∧ (evaluateStep none freshCore (.value .undefined)).core.state.status ≠ .pending)
      ∧ (evaluateStep none freshCore (.value (.num 0))).core.state.status = .ok
      ∧ (evaluateStep none freshCore (.value (.bool false))).core.state.status = .fail) :=
  ⟨by decide, undefined_sync_return_is_ok none freshCore (.num 0) (by decide)⟩

/-- A run of stale settlements (every captured tag differs from the
current generation) leaves the accumulated core and count untouched. -/
theorem foldl_settle_stale (name : Option String) (l : List (Nat × Settlement))
    (g : GuardCore) (k : Nat) (h : ∀ p ∈ l, p.1 ≠ g.evaluationId) :
    l.foldl (settleFold name) (g, k) = (g, k) := by
  induction l generalizing k with
  | nil => rfl
  | cons p t ih =>
      have hp : p.1 ≠ g.evaluationId := h p (List.mem_cons_self p t)
      have ht : ∀ q ∈ t, q.1 ≠ g.evaluationId := fun q hq => h q (List.mem_cons_of_mem p hq)
      rw [List.foldl_cons]
      rw [show settleFold name (g, k) p = (g, k) by simp [settleFold, settleAsync, hp]]
      exact ih k ht

/-- Claim C1: every evaluation attempt increments the generation counter
and captures the new value; a settlement whose captured generation no
longer equals the current one is discarded with no state mutation and no
notification; a settlement whose captured generation matches is applied
and notified; a restore also bumps the generation; for any arrival order,
placing the current-generation settlement anywhere among stale ones
yields that settlement's state and exactly one applied settlement; and in
the three-mutations-before-settlement scenario all three evaluator
invocations run while only the last-started attempt settles. -/
theorem evaluation_generation_cancellation
    (name : Option String) (g : GuardCore) (out : EvalOutcome)
    (captured : Nat) (s : Settlement) (ns : GuardState) (v : JSVal)
    (l1 l2 : List (Nat × Settlement))
    (hstale : captured ≠ g.evaluationId)
    (h1 : ∀ p ∈ l1, p.1 ≠ g.evaluationId)
    (h2 : ∀ p ∈ l2, p.1 ≠ g.evaluationId) :
    ((evaluateStep name g out).core.evaluationId = g.evaluationId + 1
      ∧ (evaluateStep name g out).captured = g.evaluationId + 1)
    ∧ settleAsync name captured g s = (g, false)
    ∧ settleAsync name g.evaluationId g (.resolved v)
        = ({ state := settleValue name v, evaluationId := g.evaluationId }, true)
    ∧ (hydrateCore g ns).1.evaluationId = g.evaluationId + 1
    ∧ applyAll name (l1 ++ (g.evaluationId, Settlement.resolved v) :: l2) g
        = ({ state := settleValue name v, evaluationId := g.evaluationId }, 1)
    ∧ (slowRun.invocations = 3 ∧ slowRun.core.evaluationId = 3
        ∧ applyAll (some "slow")
            [(1, Settlement.resolved (JSVal.num 1)), (3, Settlement.resolved (JSVal.num 3)),
              (2, Settlement.resolved (JSVal.num 2))] slowRun.core
            = ({ state := { status := .ok, value := some (.num 3) }, evaluationId := 3 }, 1)) := by
  refine ⟨?_, ?_, ?_, rfl, ?_, rfl, rfl, ?_⟩
  · cases out <;> exact ⟨rfl, rfl⟩
  · simp [settleAsync, hstale]
  · simp [settleAsync]
  · rw [applyAll, List.foldl_append, foldl_settle_stale name l1 g 0 h1, List.foldl_cons]
    rw [show settleFold name (g, 0) (g.evaluationId, Settlement.resolved v)
      = ({ state := settleValue name v, evaluationId := g.evaluationId }, 1) by
        simp [settleFold, settleAsync]]
    exact foldl_settle_stale name l2 _ 1 h2
  · decide

/-- Witness for C1: stale generation 5 against the guard after its third
attempt, with one stale settlement arriving before and one after the
current-generation settlement. -/
theorem evaluation_generation_cancellation_witness :
    ((5 : Nat) ≠ slowRun.core.evaluationId
      ∧ (∀ p ∈ [((1 : Nat), Settlement.resolved (JSVal.num 1))], p.1 ≠ slowRun.core.evaluationId)
      ∧ (∀ p ∈ [((2 : Nat), Settlement.resolved (JSVal.num 2))], p.1 ≠ slowRun.core.evaluationId))
    ∧ (((evaluateStep (some "slow") slowRun.core .promise).core.evaluationId
          = slowRun.core.evaluationId + 1
        ∧ (evaluateStep (some "slow") slowRun.core .promise).captured
          = slowRun.core.evaluationId + 1)
      ∧ settleAsync (some "slow") 5 slowRun.core (.resolved .undefined) = (slowRun.core, false)
      ∧ settleAsync (some "slow") slowRun.core.evaluationId slowRun.core (.resolved (.num 3))
          = ({ state := settleValue (some "slow") (.num 3),
                evaluationId := slowRun.core.evaluationId }, true)
      ∧ (hydrateCore slowRun.core { status := .pending }).1.evaluationId
          = slowRun.core.evaluationId + 1
      ∧ applyAll (some "slow")
          ([((1 : Nat), Settlement.resolved (JSVal.num 1))]
            ++ (slowRun.core.evaluationId, Settlement.resolved (JSVal.num 3))
              :: [((2 : Nat), Settlement.resolved (JSVal.num 2))]) slowRun.core
          = ({ state := settleValue (some "slow") (.num 3),
                evaluationId := slowRun.core.evaluationId }, 1)
      ∧ (slowRun.invocations = 3 ∧ slowRun.core.evaluationId = 3
          ∧ applyAll (some "slow")
              [(1, Settlement.resolved (JSVal.num 1)), (3, Settlement.resolved (JSVal.num 3)),
                (2, Settlement.resolved (JSVal.num 2))] slowRun.core
              = ({ state := { status := .ok, value := some (.num 3) }, evaluationId := 3 }, 1))) :=
  ⟨⟨by decide, by decide, by decide⟩,
    evaluation_generation_cancellation (some "slow") slowRun.core .promise 5
      (.resolved .undefined) { status := .pending } (.num 3)
      [((1 : Nat), Settlement.resolved (JSVal.num 1))]
      [((2 : Nat), Settlement.resolved (JSVal.num 2))]
      (by decide) (by decide) (by decide)⟩

/-- One hydration entry never changes any guard's name or evaluator
invocation count: the only mutation it performs is `hydrateGuard`, which
contains no call to the evaluator. -/
theorem hydrateEntry_invocations (reg : List (String × HGuard)) (n : String)
    (st : GuardState) :
    (hydrateEntry reg n st).map (fun p => (p.1, p.2.invocations))
      = reg.map (fun p => (p.1, p.2.invocations)) := by
  unfold hydrateEntry
  cases hfind : regGet reg n with
  | none => rfl
  | some g =>
      by_cases hh : g.hasHydrate
      · simp only [hh, if_true, List.map_map]
        refine List.map_congr_left ?_
        intro q _
        by_cases hq : q.1 = n
        · simp [hq, hydrateGuard]
        · simp [hq]
      · simp [hh]

/-- Processing a whole snapshot never changes any guard's name or
evaluator invocation count. -/
theorem hydrate_invocations (snap : List (String × GuardState))
    (reg : List (String × HGuard)) :
    (hydrate snap reg).map (fun p => (p.1, p.2.invocations))
      = reg.map (fun p => (p.1, p.2.invocations)) := by
  induction snap generalizing reg with
  | nil => rfl
  | cons e t ih =>
      rw [hydrate, List.foldl_cons]
      rw [show (t.foldl (fun r e => hydrateEntry r e.1 e.2) (hydrateEntry reg e.1 e.2))
          = hydrate t (hydrateEntry reg e.1 e.2) from rfl]
      rw [ih (hydrateEntry reg e.1 e.2)]
      exact hydrateEntry_invocations reg e.1 e.2

/-- Claim C5: restore never invokes any guard's evaluator: `_hydrate`
overwrites the state with the snapshot entry, bumps the generation (so an
in-flight evaluation is invalidated) and notifies, leaving the evaluator
invocation count of every registered guard untouched; in particular a
freshly constructed guard named is-online whose evaluator throws (it ran
exactly once, at construction, putting the guard in 'fail') ends up in
the captured 'ok' state with its invocation count still 1. -/
theorem restore_never_invokes_evaluator (g : HGuard) (st : GuardState)
    (snap : List (String × GuardState)) (reg : List (String × HGuard)) :
    ((hydrateGuard g st).invocations = g.invocations
      ∧ (hydrateGuard g st).core.state = st
      ∧ (hydrateGuard g st).core.evaluationId = g.core.evaluationId + 1
      ∧ (hydrateCore g.core st).2 = true)
    ∧ (hydrate snap reg).map (fun p => (p.1, p.2.invocations))
        = reg.map (fun p => (p.1, p.2.invocations))
    ∧ ((throwingGuard "is-online" "should not execute").core.state.status = .fail
      ∧ (throwingGuard "is-online" "should not execute").invocations = 1
      ∧ hydrate [("is-online", { status := .ok, value := some (.bool true) })]
          [("is-online", throwingGuard "is-online" "should not execute")]
        = [("is-online",
            { core := { state := { status := .ok, value := some (.bool true) },
                        evaluationId := 2 },
              invocations := 1, hasHydrate := true })]) := by
  refine ⟨⟨rfl, rfl, rfl, rfl⟩, hydrate_invocations snap reg, ?_, ?_, ?_⟩
  · rfl
  · rfl
  · decide

/-- Claim C10: snapshot entries whose name matches no registered guard,
or whose registered object exposes no hydration hook, are skipped with no
error and no state change, while matching entries are still applied (here
a snapshot carrying an unknown name ghost alongside the real is-online
entry hydrates is-online exactly as if ghost were absent). -/
theorem hydrate_skips_unmatched (reg : List (String × HGuard)) (n : String)
    (st : GuardState) :
    (regGet reg n = none → hydrateEntry reg n st = reg)
    ∧ (∀ g : HGuard, regGet reg n = some g → g.hasHydrate = false →
        hydrateEntry reg n st = reg)
    ∧ hydrate
        [("ghost", { status := .ok, value := some (.bool true) }),
          ("is-online", { status := .ok, value := some (.bool true) })]
        [("is-online", throwingGuard "is-online" "x")]
      = hydrate [("is-online", { status := .ok, value := some (.bool true) })]
        [("is-online", throwingGuard "is-online" "x")] := by
  refine ⟨?_, ?_, ?_⟩
  · intro h
    simp [hydrateEntry, h]
  · intro g hg hh
    simp [hydrateEntry, hg, hh]
  · decide

/-- Witness for C10 on a one-guard registry: the name ghost is absent, so
its entry changes nothing; a hook-less registered object named raw is
likewise skipped. -/
theorem hydrate_skips_unmatched_witness :
    (regGet [("is-online", throwingGuard "is-online" "x")] "ghost" = none
      ∧ hydrateEntry [("is-online", throwingGuard "is-online" "x")] "ghost"
          { status := .pending }
        = [("is-online", throwingGuard "is-online" "x")])
    ∧ (regGet [("raw", { core := freshCore, invocations := 0, hasHydrate := false })] "raw"
        = some { core := freshCore, invocations := 0, hasHydrate := false }
      ∧ hydrateEntry [("raw", { core := freshCore, invocations := 0, hasHydrate := false })]
          "raw" { status := .pending }
        = [("raw", { core := freshCore, invocations := 0, hasHydrate := false })]) :=
  ⟨⟨by decide,
      (hydrate_skips_unmatched [("is-online", throwingGuard "is-online" "x")] "ghost"
        { status := .pending }).1 (by decide)⟩,
    ⟨by decide,
      (hydrate_skips_unmatched
        [("raw", { core := freshCore, invocations := 0, hasHydrate := false })] "raw"
        { status := .pending }).2.1
        { core := freshCore, invocations := 0, hasHydrate := false } (by decide) rfl⟩⟩

/-- Claim C9: on a duplicate-free subscriber set (the invariant of a JS
Set), subscribing the identical callback twice registers it once, the
unsubscribe removal is idempotent, the set stays duplicate-free, and one
notification invokes the doubly subscribed callback exactly once. -/
theorem subscribe_dedup_unsubscribe_idempotent (subs : List Nat) (f : Nat)
    (h : subs.Nodup) :
    subAdd (subAdd subs f) f = subAdd subs f
    ∧ subRemove (subRemove subs f) f = subRemove subs f
    ∧ (subAdd subs f).Nodup
    ∧ (notifyCalls (subAdd (subAdd subs f) f)).count f = 1 := by
  have hmem : f ∈ subAdd subs f := by
    by_cases hf : f ∈ subs <;> simp [subAdd, hf]
  have hadd : subAdd (subAdd subs f) f = subAdd subs f := by
    rw [show subAdd (subAdd subs f) f
      = if f ∈ subAdd subs f then subAdd subs f else subAdd subs f ++ [f] from rfl]
    rw [if_pos hmem]
  have hnodup : (subAdd subs f).Nodup := by
    by_cases hf : f ∈ subs
    · simpa [subAdd, hf] using h
    · simp [subAdd, hf, List.nodup_append, h]
  refine ⟨hadd, ?_, hnodup, ?_⟩
  · have hne : f ∉ subs.erase f := fun hm => ((h.mem_erase_iff).1 hm).1 rfl
    simpa [subRemove] using List.erase_of_not_mem hne
  · rw [show notifyCalls (subAdd (subAdd subs f) f) = subAdd subs f from congrArg _ hadd]
    exact List.count_eq_one_of_mem hnodup hmem

/-- Witness for C9 on the two-subscriber set [1, 2] and callback 2. -/
theorem subscribe_dedup_unsubscribe_idempotent_witness :
    ([1, 2] : List Nat).Nodup
    ∧ (subAdd (subAdd [1, 2] 2) 2 = subAdd [1, 2] 2
      ∧ subRemove (subRemove [1, 2] 2) 2 = subRemove [1, 2] 2
      ∧ (subAdd [1, 2] 2).Nodup
      ∧ (notifyCalls (subAdd (subAdd [1, 2] 2) 2)).count 2 = 1) :=
  ⟨by decide, subscribe_dedup_unsubscribe_idempotent [1, 2] 2 (by decide)⟩

/-- The guard after one evaluation of an always-throwing evaluator, with
one subscriber: status 'fail', reason boom, no value. -/
def boomOnce : SubRun :=
  { core := (evaluateStep none freshCore (.throws "boom")).core, subCalls := 0 }

/-- Claim C8, as the code falsifies it: a second synchronous (non-promise)
evaluation of an always-throwing evaluator leaves status, value and even
reason identical, yet the catch branch of `evaluate` (index.ts 210-213)
calls `notifyDependents` unconditionally, so the subscriber fires. -/
theorem unchanged_throw_notifies_counterexample :
    (runSyncEval none boomOnce (.throws "boom")).core.state.status
        = boomOnce.core.state.status
    ∧ (runSyncEval none boomOnce (.throws "boom")).core.state.value
        = boomOnce.core.state.value
    ∧ (runSyncEval none boomOnce (.throws "boom")).core.state
        = boomOnce.core.state
    ∧ (runSyncEval none boomOnce (.throws "boom")).subCalls = boomOnce.subCalls + 1 := by
  decide

/-- Claim C8 (amended): for a synchronous evaluation whose evaluator
returns normally, dependents and subscribers are notified exactly when
the resulting status or the resulting value (by identity) differs from
the state before the evaluation; a synchronous throw, however, notifies
unconditionally, even when status, value and reason are all unchanged. -/
theorem sync_notification_iff_changed (name : Option String) (r : SubRun) (v : JSVal)
    (msg : String) :
    ((evaluateStep name r.core (.value v)).notified = false
      ↔ (r.core.state.status = (evaluateStep name r.core (.value v)).core.state.status
          ∧ r.core.state.value = (evaluateStep name r.core (.value v)).core.state.value))
    ∧ ((runSyncEval name r (.value v)).subCalls = r.subCalls
      ↔ (r.core.state.status = (evaluateStep name r.core (.value v)).core.state.status
          ∧ r.core.state.value = (evaluateStep name r.core (.value v)).core.state.value))
    ∧ ((runSyncEval name r (.value v)).subCalls = r.subCalls + 1
      ↔ ¬(r.core.state.status = (evaluateStep name r.core (.value v)).core.state.status
          ∧ r.core.state.value = (evaluateStep name r.core (.value v)).core.state.value))
    ∧ (runSyncEval name r (.throws msg)).subCalls = r.subCalls + 1 := by
  by_cases h : (r.core.state.status = (settleValue name v).status
      ∧ r.core.state.value = (settleValue name v).value)
  · refine ⟨?_, ?_, ?_, rfl⟩ <;>
      simp [runSyncEval, evaluateStep, h]
  · refine ⟨?_, ?_, ?_, rfl⟩ <;>
      simp [runSyncEval, evaluateStep, h]

/-- Claim C3, as the code falsifies it: the guard reads S and A in its
first evaluation; mutating S triggers a second evaluation that reads S
and B but not A; yet the guard is still registered in the dependent set
of A (only the notifying source clears its own set, index.ts 216-221 and
spec 4.2), so a later mutation of A re-evaluates the guard (evaluator
invocation count rises from 2 to 3). -/
theorem stale_edge_counterexample :
    switchInit.depA = true ∧ switchInit.evals = 1
    ∧ (setS 1 switchInit).evals = 2
    ∧ (setS 1 switchInit).depB = true
    ∧ (setS 1 switchInit).depA = true
    ∧ (setA 99 (setS 1 switchInit)).evals = 3 := by
  decide

/-- Claim C3 (amended): a dependency edge is removed exactly when the
trackable holding it notifies — its dependent set is snapshotted and
cleared before re-evaluating its dependents, and the guard re-registers
only what it reads.  So when the next evaluation is the one triggered by
a mutation of A and it reads B but not A, later mutations of A no longer
re-evaluate the guard (while B mutations do); an edge held by a trackable
that did not itself notify persists, as the counterexample shows. -/
theorem dependency_rebuild_on_notifying_source :
    flipInit.evals = 1 ∧ flipInit.depA = true ∧ flipInit.depB = false
    ∧ (flipSetA 1 flipInit).evals = 2
    ∧ (flipSetA 1 flipInit).depA = false
    ∧ (flipSetA 1 flipInit).depB = true
    ∧ (flipSetA 7 (flipSetA 1 flipInit)).evals = 2
    ∧ (flipSetA 7 (flipSetA 1 flipInit)).g = (flipSetA 1 flipInit).g
    ∧ (flipSetB 9 (flipSetA 1 flipInit)).evals = 3 := by
  decide

/-- First cascade state: A re-evaluates after toggle.set(true) cleared
toggle's dependent set. -/
def cycT0 : CycleSys :=
  { toggle := true,
    a := { status := .ok, value := some (.bool true) },
    b := { status := .ok, value := some (.bool true) },
    depToggleA := false, depAB := true, depBA := false }

/-- Cascade state when A (now 'fail') notifies B. -/
def cycT1 : CycleSys :=
  { toggle := true,
    a := { status := .fail, reason := some "A failed" },
    b := { status := .ok, value := some (.bool true) },
    depToggleA := true, depAB := false, depBA := true }

/-- Cascade state when B (now ok undefined) notifies A. -/
def cycT2 : CycleSys :=
  { toggle := true,
    a := { status := .fail, reason := some "A failed" },
    b := { status := .ok, value := some .undefined },
    depToggleA := true, depAB := true, depBA := false }

/-- Cascade state when A (now ok true again) notifies B. -/
def cycT3 : CycleSys :=
  { toggle := true,
    a := { status := .ok, value := some (.bool true) },
    b := { status := .ok, value := some .undefined },
    depToggleA := true, depAB := false, depBA := true }

/-- Cascade state when B (ok true again) notifies A, closing the loop. -/
def cycT4 : CycleSys :=
  { toggle := true,
    a := { status := .ok, value := some (.bool true) },
    b := { status := .ok, value := some (.bool true) },
    depToggleA := true, depAB := true, depBA := false }

theorem cycStep0 (n : Nat) :
    cycleRun (n + 1) .runA cycT0 = cycleRun n .runB cycT1 := rfl

theorem cycStep1 (n : Nat) :
    cycleRun (n + 1) .runB cycT1 = cycleRun n .runA cycT2 := rfl

theorem cycStep2 (n : Nat) :
    cycleRun (n + 1) .runA cycT2 = cycleRun n .runB cycT3 := rfl

theorem cycStep3 (n : Nat) :
    cycleRun (n + 1) .runB cycT3 = cycleRun n .runA cycT4 := rfl

theorem cycStep4 (n : Nat) :
    cycleRun (n + 1) .runA cycT4 = cycleRun n .runB cycT1 := rfl

/-- The four-state notification loop exhausts every fuel bound. -/
theorem cycLoop (n : Nat) :
    cycleRun n .runB cycT1 = none ∧ cycleRun n .runA cycT2 = none
    ∧ cycleRun n .runB cycT3 = none ∧ cycleRun n .runA cycT4 = none := by
  induction n with
  | zero => exact ⟨rfl, rfl, rfl, rfl⟩
  | succ n ih =>
      refine ⟨?_, ?_, ?_, ?_⟩
      · rw [cycStep1]; exact ih.2.1
      · rw [cycStep2]; exact ih.2.2.1
      · rw [cycStep3]; exact ih.2.2.2
      · rw [cycStep4]; exact ih.1

/-- Claim C2, on the code as written: `evaluate` (index.ts 172-214)
re-invokes the evaluator on re-entry — it contains no check for the guard
already being on the synchronous evaluation call path and no distinguished
cyclic-dependency reason.  In the mutual-dependency scenario of
core.test.ts 72-87 the construction settles fine (A reads as ok true),
but `toggle.set(true)` starts a notification cascade between A and B that
exhausts every fuel bound instead of settling A to 'fail' with the
Cyclic-guard-dependency reason the test and the spec require. -/
theorem cycle_detection_missing_divergence :
    cycleConstruct = some cycleInit
    ∧ guardRead cycleInit.a = .bool true
    ∧ ∀ fuel : Nat, toggleSetTrue fuel cycleInit = none := by
  refine ⟨rfl, rfl, ?_⟩
  intro fuel
  have hred : toggleSetTrue fuel cycleInit = cycleRun fuel .runA cycT0 := rfl
  rw [hred]
  cases fuel with
  | zero => rfl
  | succ n =>
      rw [cycStep0]
      exact (cycLoop n).1

end Pulse
